import Mathlib

/-!
Verification development for the SPROMOJI rig service
(`spromoji_rig/main.py`).

The Python module is shallowly embedded: image payloads are lists of byte
values (`List Nat`), Python floats are modelled exactly as rationals (the
arithmetic performed by the service -- sums, products by decimal literals,
min/max, division by image dimensions -- is exact on the float inputs
involved up to the usual float rounding, which no claim depends on),
Python exceptions escaping the request handler are modelled by
`Except.error`, and `HTTPException` responses handled by the framework are
modelled as `Resp.httpError`.  `hashlib.sha256` is modelled as an
arbitrary fixed function parameter (`Ctx.hashFn`): the service only uses
its determinism and equality of outputs.  Base64 decoding of the form
field is applied upstream (`Body.b64` carries the decoded bytes); no claim
exercises the decoder itself.
-/

/-- Image payloads: a Python `bytes` value as a list of byte values. -/
abbrev Bytes := List Nat

/-- Python slice `data[a:b]` (for `a ≤ b`, the only uses in the source). -/
def byteSlice (data : Bytes) (a b : Nat) : Bytes :=
  (data.drop a).take (b - a)

/-- Big-endian `int.from_bytes(l, byteorder="big")`. -/
def beBytes (l : Bytes) : Nat :=
  l.foldl (fun acc b => acc * 256 + b) 0

/-- Little-endian `int.from_bytes(l, byteorder="little")`. -/
def leBytes (l : Bytes) : Nat :=
  l.foldr (fun b acc => b + 256 * acc) 0

/-- The JPEG marker scan loop of `get_image_dimensions`
(`while pos < len(data) - 8: ...`), returning the `(width, height)` the
loop would `return`, or `none` when the loop falls through. -/
def jpegFindC0 (data : Bytes) (pos : Nat) : Option (Nat × Nat) :=
  if h : pos < data.length - 8 then
    if data.getD pos 0 = 0xFF ∧ data.getD (pos + 1) 0 = 0xC0 then
      some (beBytes (byteSlice data (pos + 7) (pos + 9)),
            beBytes (byteSlice data (pos + 5) (pos + 7)))
    else jpegFindC0 data (pos + 1)
  else none
termination_by data.length - 8 - pos
decreasing_by omega

/-- Source `get_image_dimensions`: header-sniffed `(width, height)`
with `(512, 512)` as the fall-through default.  The Python body is wrapped
in `try/except`, but every operation in it is total (slices of short byte
strings are short, indexing is guarded), so the embedding is a total
function. -/
def get_image_dimensions (data : Bytes) : Nat × Nat :=
  if byteSlice data 0 4 = [0x89, 0x50, 0x4E, 0x47] then
    if 24 < data.length then
      (beBytes (byteSlice data 16 20), beBytes (byteSlice data 20 24))
    else (512, 512)
  else if byteSlice data 0 2 = [0xFF, 0xD8] then
    match jpegFindC0 data 2 with
    | some d => d
    | none => (512, 512)
  else if byteSlice data 0 6 = [71, 73, 70, 56, 55, 97]
       ∨ byteSlice data 0 6 = [71, 73, 70, 56, 57, 97] then
    if 10 < data.length then
      (leBytes (byteSlice data 6 8), leBytes (byteSlice data 8 10))
    else (512, 512)
  else if byteSlice data 0 4 = [82, 73, 70, 70]
       ∧ byteSlice data 8 12 = [87, 69, 66, 80] then
    if 30 < data.length then
      if byteSlice data 12 16 = [86, 80, 56, 32] then
        (leBytes (byteSlice data 26 28) &&& 0x3fff,
         leBytes (byteSlice data 28 30) &&& 0x3fff)
      else if byteSlice data 12 16 = [86, 80, 56, 76] then
        let bits := leBytes (byteSlice data 21 25)
        ((bits &&& 0x3fff) + 1, ((bits >>> 14) &&& 0x3fff) + 1)
      else (512, 512)
    else (512, 512)
  else (512, 512)

/-- Isolated PNG header parser (the spec view of format sniffing):
dimensions of a recognized PNG header, `none` otherwise. -/
def parsePNGdims (data : Bytes) : Option (Nat × Nat) :=
  if byteSlice data 0 4 = [0x89, 0x50, 0x4E, 0x47] ∧ 24 < data.length then
    some (beBytes (byteSlice data 16 20), beBytes (byteSlice data 20 24))
  else none

/-- Isolated JPEG header parser. -/
def parseJPEGdims (data : Bytes) : Option (Nat × Nat) :=
  if byteSlice data 0 2 = [0xFF, 0xD8] then jpegFindC0 data 2 else none

/-- Isolated GIF header parser. -/
def parseGIFdims (data : Bytes) : Option (Nat × Nat) :=
  if (byteSlice data 0 6 = [71, 73, 70, 56, 55, 97]
      ∨ byteSlice data 0 6 = [71, 73, 70, 56, 57, 97]) ∧ 10 < data.length then
    some (leBytes (byteSlice data 6 8), leBytes (byteSlice data 8 10))
  else none

/-- Isolated WebP header parser (VP8 and VP8L payloads only, as in the
source). -/
def parseWEBPdims (data : Bytes) : Option (Nat × Nat) :=
  if byteSlice data 0 4 = [82, 73, 70, 70]
     ∧ byteSlice data 8 12 = [87, 69, 66, 80] ∧ 30 < data.length then
    if byteSlice data 12 16 = [86, 80, 56, 32] then
      some (leBytes (byteSlice data 26 28) &&& 0x3fff,
            leBytes (byteSlice data 28 30) &&& 0x3fff)
    else if byteSlice data 12 16 = [86, 80, 56, 76] then
      let bits := leBytes (byteSlice data 21 25)
      some ((bits &&& 0x3fff) + 1, ((bits >>> 14) &&& 0x3fff) + 1)
    else none
  else none

/-- The spec decomposition of format sniffing: one narrowly-scoped parser
per format, composed with the `(512, 512)` default. -/
def sniff_dimensions (data : Bytes) : Nat × Nat :=
  match parsePNGdims data with
  | some d => d
  | none =>
    match parseJPEGdims data with
    | some d => d
    | none =>
      match parseGIFdims data with
      | some d => d
      | none =>
        match parseWEBPdims data with
        | some d => d
        | none => (512, 512)

/-- The ratio record returned by `analyze_image_content` (source keys
`dark_ratio`, `light_ratio`, `color_ratio`). -/
structure ContentInfo where
  ratio_dark : ℚ
  ratio_light : ℚ
  ratio_color : ℚ
deriving DecidableEq

/-- One iteration of the sampling loop of `analyze_image_content`.  Under
the guard `i + 2 < len(data)` the Python conditional defaults (`else 128`)
are never taken, so `getD _ 128` agrees with the source. -/
def sampleAt (data : Bytes) (counts : Nat × Nat × Nat) (i : Nat) : Nat × Nat × Nat :=
  if i + 2 < data.length then
    let r := data.getD i 128
    let g := data.getD (i + 1) 128
    let b := data.getD (i + 2) 128
    let gray : ℚ := ((r : ℚ) * 0.299 + (g : ℚ) * 0.587 + (b : ℚ) * 0.114) / 255
    let counts :=
      if gray < 0.3 then (counts.1 + 1, counts.2.1, counts.2.2)
      else if 0.7 < gray then (counts.1, counts.2.1 + 1, counts.2.2)
      else counts
    if 30 < ((r : ℤ) - g).natAbs ∨ 30 < ((g : ℤ) - b).natAbs
       ∨ 30 < ((r : ℤ) - b).natAbs then
      (counts.1, counts.2.1, counts.2.2 + 1)
    else counts
  else counts

/-- Source `analyze_image_content`: here `none` models the empty dict returned for
payloads below 1000 bytes (callers read the keys with default `0`).
`range(0, len(data), sample_step)` has `ceil(len / step)` iterations. -/
def analyze_image_content (data : Bytes) : Option ContentInfo :=
  if data.length < 1000 then none
  else
    let sample_size := min 10000 (data.length / 4)
    let sample_step := data.length / sample_size
    let idxs := List.range' 0 ((data.length + sample_step - 1) / sample_step) sample_step
    let counts := idxs.foldl (sampleAt data) (0, 0, 0)
    if 0 < sample_size then
      some { ratio_dark := (counts.1 : ℚ) / sample_size,
             ratio_light := (counts.2.1 : ℚ) / sample_size,
             ratio_color := (counts.2.2 : ℚ) / sample_size }
    else some { ratio_dark := 0, ratio_light := 0, ratio_color := 0 }

/-- A region dict `{x, y, w, h, cx, cy, rx, ry}`. -/
structure Box where
  x : ℚ
  y : ℚ
  w : ℚ
  h : ℚ
  cx : ℚ
  cy : ℚ
  rx : ℚ
  ry : ℚ
deriving DecidableEq

/-- The `{leftEye, rightEye, mouth}` dict of `detect_cartoon_features`. -/
structure Features where
  leftEye : Box
  rightEye : Box
  mouth : Box
deriving DecidableEq

/-- Source `detect_cartoon_features_fallback(w, h)`: the fixed proportional
layout.  The source annotates the return type `Optional[dict]` but always
returns the dict. -/
def detect_cartoon_features_fallback (w h : ℚ) : Features :=
  { leftEye := { x := w * 0.25, y := h * 0.35, w := w * 0.15, h := h * 0.12,
                 cx := w * 0.325, cy := h * 0.41, rx := w * 0.075, ry := h * 0.06 },
    rightEye := { x := w * 0.6, y := h * 0.35, w := w * 0.15, h := h * 0.12,
                  cx := w * 0.675, cy := h * 0.41, rx := w * 0.075, ry := h * 0.06 },
    mouth := { x := w * 0.35, y := h * 0.65, w := w * 0.3, h := h * 0.15,
               cx := w * 0.5, cy := h * 0.725, rx := w * 0.15, ry := h * 0.075 } }

/-- The dark-ratio adjustment: both eye regions get `w, h, rx, ry`
scaled by `0.8` (positions untouched). -/
def adjustEyes (f : Features) : Features :=
  { f with
    leftEye :=
      { f.leftEye with
        w := f.leftEye.w * 0.8, h := f.leftEye.h * 0.8,
        rx := f.leftEye.rx * 0.8, ry := f.leftEye.ry * 0.8 },
    rightEye :=
      { f.rightEye with
        w := f.rightEye.w * 0.8, h := f.rightEye.h * 0.8,
        rx := f.rightEye.rx * 0.8, ry := f.rightEye.ry * 0.8 } }

/-- The color-ratio adjustment: the mouth gets `w, rx` scaled by `1.2`
and `h, ry` by `1.1`. -/
def adjustMouth (f : Features) : Features :=
  { f with
    mouth :=
      { f.mouth with
        w := f.mouth.w * 1.2, h := f.mouth.h * 1.1,
        rx := f.mouth.rx * 1.2, ry := f.mouth.ry * 1.1 } }

/-- The bounds-clamping loop body of `detect_cartoon_features`
(lines 241-249): `x, y, w, h` are clamped in this order, each step reading
the values produced by the previous ones, then `cx, cy, rx, ry` are
recomputed from the clamped box. -/
def clampRegion (w h : ℚ) (r : Box) : Box :=
  let x := max 0 (min r.x (w - r.w))
  let y := max 0 (min r.y (h - r.h))
  let w2 := max 20 (min r.w (w - x))
  let h2 := max 20 (min r.h (h - y))
  { x := x, y := y, w := w2, h := h2,
    cx := x + w2 / 2, cy := y + h2 / 2, rx := w2 / 2, ry := h2 / 2 }

/-- Source `detect_cartoon_features`: proportional layout at the sniffed
dimensions, perturbed by the sampled content statistics, then clamped.
Every operation in the `try` body is total, so the `except` branch
(returning the 512x512 layout) is dead code and the function always
returns a feature dict containing all three keys. -/
def detect_cartoon_features (data : Bytes) : Option Features :=
  let wh := get_image_dimensions data
  let w : ℚ := wh.1
  let h : ℚ := wh.2
  let info := analyze_image_content data
  let dark_ratio : ℚ := (info.map ContentInfo.ratio_dark).getD 0
  let color_ratio : ℚ := (info.map ContentInfo.ratio_color).getD 0
  let base0 := detect_cartoon_features_fallback w h
  let base1 := if 0.3 < dark_ratio then adjustEyes base0 else base0
  let base2 := if 0.5 < color_ratio then adjustMouth base1 else base1
  some { leftEye := clampRegion w h base2.leftEye,
         rightEye := clampRegion w h base2.rightEye,
         mouth := clampRegion w h base2.mouth }

/-- Source `box_to_poly(box, w, h)`: the four corners of the box divided by the
image dimensions, ordered top-left, top-right, bottom-right, bottom-left.
The source produces 2-element lists; pairs model the points. -/
def box_to_poly (box : Box) (w h : Nat) : List (ℚ × ℚ) :=
  [(box.x / w, box.y / h),
   ((box.x + box.w) / w, box.y / h),
   ((box.x + box.w) / w, (box.y + box.h) / h),
   (box.x / w, (box.y + box.h) / h)]

/-- One named region of a rig. -/
structure Region where
  type : String
  poly : List (ℚ × ℚ)
deriving DecidableEq

/-- A rig: the list of region dicts returned by the endpoint. -/
abbrev Rig := List Region

/-- The three-region rig built from a feature dict (endpoint lines
339-343 and `sam_clip_fallback` lines 286-290). -/
def featuresToRig (f : Features) (w h : Nat) : Rig :=
  [{ type := "eyeL", poly := box_to_poly f.leftEye w h },
   { type := "eyeR", poly := box_to_poly f.rightEye w h },
   { type := "mouth", poly := box_to_poly f.mouth w h }]

/-- The hard-coded static default rig (endpoint lines 350-354). -/
def staticDefaultRig : Rig :=
  [{ type := "eyeL", poly := [(0.25, 0.35), (0.4, 0.35), (0.4, 0.47), (0.25, 0.47)] },
   { type := "eyeR", poly := [(0.6, 0.35), (0.75, 0.35), (0.75, 0.47), (0.6, 0.47)] },
   { type := "mouth", poly := [(0.35, 0.65), (0.65, 0.65), (0.65, 0.8), (0.35, 0.8)] }]

/-- JSON values as stored in cache files and served in responses. -/
inductive Json where
  | num (q : ℚ)
  | str (s : String)
  | arr (elems : List Json)
  | obj (fields : List (String × Json))

/-- JSON encoding of a point (`json.dumps` view; exact, since Python float
serialization round-trips). -/
def encodePoint (p : ℚ × ℚ) : Json :=
  Json.arr [Json.num p.1, Json.num p.2]

/-- JSON encoding of one region dict. -/
def encodeRegion (r : Region) : Json :=
  Json.obj [("type", Json.str r.type), ("poly", Json.arr (r.poly.map encodePoint))]

/-- JSON encoding of a rig. -/
def encodeRig (r : Rig) : Json :=
  Json.arr (r.map encodeRegion)

/-- JSON decoding of a point. -/
def decodePoint : Json → Option (ℚ × ℚ)
  | Json.arr [Json.num a, Json.num b] => some (a, b)
  | _ => none

/-- JSON decoding of a point list. -/
def decodePoints : List Json → Option (List (ℚ × ℚ))
  | [] => some []
  | j :: js =>
    match decodePoint j, decodePoints js with
    | some p, some ps => some (p :: ps)
    | _, _ => none

/-- JSON decoding of one region dict. -/
def decodeRegion : Json → Option Region
  | Json.obj [("type", Json.str t), ("poly", Json.arr ps)] =>
    match decodePoints ps with
    | some l => some { type := t, poly := l }
    | none => none
  | _ => none

/-- JSON decoding of a region list. -/
def decodeRegions : List Json → Option (List Region)
  | [] => some []
  | j :: js =>
    match decodeRegion j, decodeRegions js with
    | some r, some rs => some (r :: rs)
    | _, _ => none

/-- JSON decoding of a rig. -/
def decodeRig : Json → Option Rig
  | Json.arr rs => decodeRegions rs
  | _ => none

/-- Python truthiness of a JSON value (`if not rig:`). -/
def jsonTruthy : Json → Bool
  | Json.num q => decide (q ≠ 0)
  | Json.str s => !s.isEmpty
  | Json.arr l => !l.isEmpty
  | Json.obj l => !l.isEmpty

/-- Python truthiness of an optional JSON value (`None` is falsy). -/
def optTruthy : Option Json → Bool
  | none => false
  | some j => jsonTruthy j

/-- First-match lookup in an association list (Python dict read; updates
are modelled by consing, so the most recent binding wins). -/
def lookupS {α : Type} : List (String × α) → String → Option α
  | [], _ => none
  | (k, v) :: rest, key => if k = key then some v else lookupS rest key

/-- Read of `_REQUEST_LOG.get(client_id, [])`. -/
def getLog (log : List (String × List ℚ)) (k : String) : List ℚ :=
  (lookupS log k).getD []

/-- Source `_check_rate_limit` acting on one client record: prune to the strict
trailing window, reject (without touching the stored record -- the
exception is raised before the dict write) when the pruned count already
reaches 60, otherwise store the pruned record with `now` appended. -/
def check_rate_limit (log : List ℚ) (now : ℚ) : Bool × List ℚ :=
  let window_start := now - 60
  let hits := log.filter (fun t => decide (window_start < t))
  if 60 ≤ hits.length then (false, log) else (true, hits ++ [now])

/-- Sequential rate-limiter checks at the given times, returning the
admit/reject outcomes and the final stored record. -/
def check_rate_limit_run (log : List ℚ) : List ℚ → List Bool × List ℚ
  | [] => ([], log)
  | t :: ts =>
    match check_rate_limit log t with
    | (b, log2) =>
      match check_rate_limit_run log2 ts with
      | (bs, log3) => (b :: bs, log3)

/-- The optional S3 tier: `put_object` and `generate_presigned_url`,
each either succeeding or raising (modelled by `Except.error`). -/
structure S3Model where
  putObject : String → Json → Except Unit Unit
  presignedUrl : String → Except Unit String

/-- Request-independent service configuration: the content hash function
(`hashlib.sha256` hex digest, used only through equality), the optional
S3 client, the fixture overlay `_RIG_CACHE` loaded at startup, and
whether the SAM and CLIP model objects are present. -/
structure Ctx where
  hashFn : Bytes → String
  s3 : Option S3Model
  fixtures : List (String × Json)
  samClipModels : Bool

/-- Mutable service state: the per-client request log and the local
cache directory (hash to stored rig JSON). -/
structure St where
  reqLog : List (String × List ℚ)
  fileCache : List (String × Json)

/-- The request payload: a multipart file, a base64 form field (decoded
upstream), or nothing. -/
inductive Body where
  | file (data : Bytes)
  | b64 (decoded : Bytes)
  | empty

/-- The response: an inline JSON body, a redirect to a presigned URL, or
an `HTTPException` status handled by the framework. -/
inductive Resp where
  | json (rig : Json) (hash : String)
  | redirect (url : String)
  | httpError (status : Nat)

/-- The detection branch of the endpoint (lines 331-343): run the
detector, then, inside the truthy branch, re-sniff the dimensions and
build the rig.  `box_to_poly` divides by the dimensions, so a sniffed
zero width or height raises `ZeroDivisionError` (uncaught:
`Except.error`). -/
def rigFromDetection (data : Bytes) : Except Unit (Option Rig) :=
  match detect_cartoon_features data with
  | none => Except.ok none
  | some f =>
    let wh := get_image_dimensions data
    if wh.1 = 0 ∨ wh.2 = 0 then Except.error ()
    else Except.ok (some (featuresToRig f wh.1 wh.2))

/-- Source `sam_clip_fallback`: it is `None` when the heavy models are absent,
otherwise the same feature-based rig as the detection branch. -/
def sam_clip_fallback (models : Bool) (data : Bytes) : Except Unit (Option Rig) :=
  if models = false then Except.ok none
  else
    match detect_cartoon_features data with
    | none => Except.ok none
    | some f =>
      let wh := get_image_dimensions data
      if wh.1 = 0 ∨ wh.2 = 0 then Except.error ()
      else Except.ok (some (featuresToRig f wh.1 wh.2))

/-- The cache-miss rig computation of the endpoint (lines 328-354):
fixture overlay, detection branch, `sam_clip_fallback`, then the static
default, with Python truthiness (`if not rig:`) deciding each handoff. -/
def missPathRig (ctx : Ctx) (data : Bytes) (hash : String) : Except Unit Json :=
  let step1 : Except Unit (Option Json) :=
    match lookupS ctx.fixtures hash with
    | some r => Except.ok (some r)
    | none =>
      match rigFromDetection data with
      | Except.error e => Except.error e
      | Except.ok r => Except.ok (r.map encodeRig)
  match step1 with
  | Except.error e => Except.error e
  | Except.ok rig1 =>
    let step2 : Except Unit (Option Json) :=
      if optTruthy rig1 then Except.ok rig1
      else
        match sam_clip_fallback ctx.samClipModels data with
        | Except.error e => Except.error e
        | Except.ok r => Except.ok (r.map encodeRig)
    match step2 with
    | Except.error e => Except.error e
    | Except.ok rig2 =>
      Except.ok (match rig2 with
        | some j => if jsonTruthy j then j else encodeRig staticDefaultRig
        | none => encodeRig staticDefaultRig)

/-- The endpoint body from the hash computation on (lines 315-369):
local-file cache hit (redirecting via S3 when configured, with a
presign failure propagating uncaught), or the miss path: compute the
rig, write the cache file, then best-effort S3 upload and redirect
(errors absorbed, falling back to the inline JSON response). -/
def servePayload (ctx : Ctx) (st : St) (data : Bytes) : Except Unit (Resp × St) :=
  let avatar_hash := ctx.hashFn data
  match lookupS st.fileCache avatar_hash with
  | some rig =>
    match ctx.s3 with
    | some m =>
      match m.presignedUrl ("rigs/" ++ avatar_hash ++ ".json") with
      | Except.ok url => Except.ok (Resp.redirect url, st)
      | Except.error e => Except.error e
    | none => Except.ok (Resp.json rig avatar_hash, st)
  | none =>
    match missPathRig ctx data avatar_hash with
    | Except.error e => Except.error e
    | Except.ok rigJson =>
      let st2 : St := { st with fileCache := (avatar_hash, rigJson) :: st.fileCache }
      match ctx.s3 with
      | none => Except.ok (Resp.json rigJson avatar_hash, st2)
      | some m =>
        match m.putObject ("rigs/" ++ avatar_hash ++ ".json") rigJson with
        | Except.error _ => Except.ok (Resp.json rigJson avatar_hash, st2)
        | Except.ok _ =>
          match m.presignedUrl ("rigs/" ++ avatar_hash ++ ".json") with
          | Except.error _ => Except.ok (Resp.json rigJson avatar_hash, st2)
          | Except.ok url => Except.ok (Resp.redirect url, st2)

/-- Python f-string formatting of the optional API key header (`None`
formats as the string `"None"`). -/
def headerStr : Option String → String
  | some k => k
  | none => "None"

/-- Source `rig_endpoint`: rate limit (the admitted record is written even when
a later check fails, exactly as in the source, where `_check_rate_limit`
runs before authentication), then the API key check against the constant
`"change-me"` (a missing header formats as `"None"` in the client id),
then payload selection, then `servePayload`. -/
def rig_endpoint (ctx : Ctx) (st : St) (now : ℚ) (host : String)
    (apiKeyHeader : Option String) (body : Body) : Except Unit (Resp × St) :=
  let clientId := host ++ ":" ++ headerStr apiKeyHeader
  let res := check_rate_limit (getLog st.reqLog clientId) now
  if res.1 then
    let st1 : St := { st with reqLog := (clientId, res.2) :: st.reqLog }
    if apiKeyHeader ≠ some "change-me" then Except.ok (Resp.httpError 401, st1)
    else
      match body with
      | Body.empty => Except.ok (Resp.httpError 400, st1)
      | Body.file data => servePayload ctx st1 data
      | Body.b64 data => servePayload ctx st1 data
  else Except.ok (Resp.httpError 429, st)

/-- The rig shape asserted by the spec: exactly the three types `eyeL`,
`eyeR`, `mouth` in order, four points per polygon, and every coordinate
in the unit interval. -/
def rigClaimOK (r : Rig) : Prop :=
  r.map Region.type = ["eyeL", "eyeR", "mouth"] ∧
  ∀ reg ∈ r, reg.poly.length = 4 ∧
    ∀ p ∈ reg.poly, 0 ≤ p.1 ∧ p.1 ≤ 1 ∧ 0 ≤ p.2 ∧ p.2 ≤ 1

/-- The bytes of a genuine 2x2 solid-gray PNG (8-bit RGB, pixel value
128), 71 bytes long: signature, IHDR with width 2 and height 2, one
zlib-compressed IDAT, IEND. -/
def png2x2 : Bytes :=
  [137, 80, 78, 71, 13, 10, 26, 10, 0, 0, 0, 13, 73, 72, 68, 82,
   0, 0, 0, 2, 0, 0, 0, 2, 8, 2, 0, 0, 0, 253, 212, 154,
   115, 0, 0, 0, 14, 73, 68, 65, 84, 120, 156, 99, 104, 0, 3, 6,
   8, 5, 0, 42, 14, 6, 1, 21, 158, 66, 215, 0, 0, 0, 0, 73,
   69, 78, 68, 174, 66, 96, 130]

/-- The feature dict the detector computes for `png2x2`: the
proportional layout at the parsed 2x2 dimensions, clamped, with the
20-pixel minimum region size forcing widths and heights of 20 on a
2-pixel image. -/
def feat2x2 : Features :=
  { leftEye := { x := 0.5, y := 0.7, w := 20, h := 20,
                 cx := 10.5, cy := 10.7, rx := 10, ry := 10 },
    rightEye := { x := 1.2, y := 0.7, w := 20, h := 20,
                  cx := 11.2, cy := 10.7, rx := 10, ry := 10 },
    mouth := { x := 0.7, y := 1.3, w := 20, h := 20,
               cx := 10.7, cy := 11.3, rx := 10, ry := 10 } }

/-- The rig the detector branch produces for `png2x2`: the proportional
layout at the parsed 2x2 dimensions, with the 20-pixel minimum region
size forcing widths and heights of 20 on a 2-pixel image. -/
def rigAt2x2 : Rig :=
  [{ type := "eyeL",
     poly := [(1/4, 7/20), (41/4, 7/20), (41/4, 207/20), (1/4, 207/20)] },
   { type := "eyeR",
     poly := [(3/5, 7/20), (53/5, 7/20), (53/5, 207/20), (3/5, 207/20)] },
   { type := "mouth",
     poly := [(7/20, 13/20), (207/20, 13/20), (207/20, 213/20), (7/20, 213/20)] }]

/-- A service context with no S3 tier, no fixtures and no heavy models;
the hash function is constant since only equality of digests matters. -/
def ctxP : Ctx :=
  { hashFn := fun _ => "hP", s3 := none, fixtures := [], samClipModels := false }

/-- The empty initial state: no request log, empty cache directory. -/
def st0 : St := { reqLog := [], fileCache := [] }

/-- A stored client record holding one stale timestamp (outside any
60-second window that also contains the sixty fresh ones) and sixty
fresh timestamps. -/
def c5log : List ℚ := (-100) :: List.replicate 60 0

/-- An S3 tier whose calls always raise. -/
def s3Fail : S3Model :=
  { putObject := fun _ _ => Except.error (),
    presignedUrl := fun _ => Except.error () }

/-- A context with a failing S3 tier configured. -/
def ctxS3 : Ctx :=
  { hashFn := fun _ => "hX", s3 := some s3Fail, fixtures := [], samClipModels := false }

/-- A state whose cache directory already holds a rig for hash `hX`. -/
def stHit : St := { reqLog := [], fileCache := [("hX", Json.str "cached")] }

/-- A bundled fixture rig (truthy JSON). -/
def fixJson : Json := Json.arr [Json.str "fixture-rig"]

/-- A context whose fixture overlay covers the hash `f1` of every
payload (constant hash function). -/
def ctxFix : Ctx :=
  { hashFn := fun _ => "f1", s3 := none, fixtures := [("f1", fixJson)], samClipModels := false }

/-- A context for the idempotence witness. -/
def ctxW : Ctx :=
  { hashFn := fun _ => "h0w", s3 := none, fixtures := [], samClipModels := false }

/-- A state whose cache directory already holds a rig for hash `h0w`. -/
def stW : St := { reqLog := [], fileCache := [("h0w", Json.str "cached-rig")] }

/-! ## Helper lemmas -/

lemma byteSlice_zero (data : Bytes) (n : Nat) : byteSlice data 0 n = data.take n := by
  simp [byteSlice]

lemma take_of_take (data : Bytes) {m n : Nat} (hmn : m ≤ n) {l : Bytes}
    (h : data.take n = l) : data.take m = l.take m := by
  rw [← h, List.take_take, Nat.min_eq_left hmn]

lemma take_ne_of_take (data : Bytes) {m n : Nat} (hmn : m ≤ n) {l₁ l₂ : Bytes}
    (h : data.take n = l₁) (hne : l₁.take m ≠ l₂) : data.take m ≠ l₂ := by
  rw [take_of_take data hmn h]
  exact hne

lemma take_ne_larger (data : Bytes) {m n : Nat} (hmn : m ≤ n) {l₁ l₂ : Bytes}
    (h : data.take m = l₁) (hne : l₂.take m ≠ l₁) : data.take n ≠ l₂ := by
  intro hcontra
  have h2 := take_of_take data hmn hcontra
  rw [h] at h2
  exact hne h2.symm

/-! ## C8: box_to_poly round trip -/

/-- Claim C8: for every bounding box and positive image dimensions,
multiplying each coordinate of `box_to_poly box w h` back by `(w, h)`
reconstructs the four corners of the box, in the order top-left,
top-right, bottom-right, bottom-left. -/
theorem C8_box_to_poly_roundtrip (b : Box) (w h : Nat) (hw : 0 < w) (hh : 0 < h) :
    (box_to_poly b w h).map (fun p => (p.1 * (w : ℚ), p.2 * (h : ℚ))) =
      [(b.x, b.y), (b.x + b.w, b.y), (b.x + b.w, b.y + b.h), (b.x, b.y + b.h)] := by
  have hw2 : ((w : ℚ)) ≠ 0 := by exact_mod_cast hw.ne'
  have hh2 : ((h : ℚ)) ≠ 0 := by exact_mod_cast hh.ne'
  simp [box_to_poly, div_mul_cancel₀, hw2, hh2]

/-- Witness for C8 at a concrete box and concrete dimensions. -/
theorem C8_box_to_poly_roundtrip_witness :
    (box_to_poly { x := 1, y := 2, w := 3, h := 4, cx := 0, cy := 0, rx := 0, ry := 0 }
        10 20).map (fun p => (p.1 * ((10 : ℕ) : ℚ), p.2 * ((20 : ℕ) : ℚ))) =
      [((1 : ℚ), (2 : ℚ)), (1 + 3, 2), (1 + 3, 2 + 4), (1, 2 + 4)] :=
  C8_box_to_poly_roundtrip
    { x := 1, y := 2, w := 3, h := 4, cx := 0, cy := 0, rx := 0, ry := 0 }
    10 20 (by decide) (by decide)

/-! ## C9: get_image_dimensions as four isolated format parsers -/

/-- Claim C9: `get_image_dimensions` never fails (it is a total function)
and equals the composition of one isolated header parser per recognized
format (PNG, JPEG, GIF, WebP) with the `(512, 512)` default for
unrecognized, malformed or too-short headers. -/
theorem C9_get_image_dimensions_refines (data : Bytes) :
    get_image_dimensions data = sniff_dimensions data := by
  unfold get_image_dimensions sniff_dimensions parsePNGdims parseJPEGdims
    parseGIFdims parseWEBPdims
  simp only [byteSlice_zero]
  by_cases hpng : data.take 4 = [137, 80, 78, 71]
  · have hj : data.take 2 ≠ [255, 216] :=
      take_ne_of_take data (by omega) hpng (by decide)
    have hgif : ¬ (data.take 6 = [71, 73, 70, 56, 55, 97]
        ∨ data.take 6 = [71, 73, 70, 56, 57, 97]) := by
      rintro (h | h) <;>
        · have h2 := take_of_take data (show 4 ≤ 6 by omega) h
          rw [hpng] at h2
          exact absurd h2 (by decide)
    have hweb : data.take 4 ≠ [82, 73, 70, 70] := by
      rw [hpng]; decide
    by_cases hlen : 24 < data.length <;>
      simp [hpng, hj, hgif, hweb, hlen]
  · by_cases hjpeg : data.take 2 = [255, 216]
    · have hgif : ¬ (data.take 6 = [71, 73, 70, 56, 55, 97]
          ∨ data.take 6 = [71, 73, 70, 56, 57, 97]) := by
        rintro (h | h) <;>
          · have h2 := take_of_take data (show 2 ≤ 6 by omega) h
            rw [hjpeg] at h2
            exact absurd h2 (by decide)
      have hweb : data.take 4 ≠ [82, 73, 70, 70] :=
        take_ne_larger data (by omega) hjpeg (by decide)
      rcases hscan : jpegFindC0 data 2 with _ | d <;>
        simp [hpng, hjpeg, hgif, hweb, hscan]
    · by_cases hgif : data.take 6 = [71, 73, 70, 56, 55, 97]
          ∨ data.take 6 = [71, 73, 70, 56, 57, 97]
      · have hweb : data.take 4 ≠ [82, 73, 70, 70] := by
          rcases hgif with h | h <;>
            · have h2 := take_of_take data (show 4 ≤ 6 by omega) h
              rw [h2]; decide
        by_cases hlen : 10 < data.length <;>
          simp [hpng, hjpeg, hgif, hweb, hlen]
      · by_cases hweb : data.take 4 = [82, 73, 70, 70]
            ∧ byteSlice data 8 12 = [87, 69, 66, 80]
        · by_cases hlen : 30 < data.length
          · by_cases hvp8 : byteSlice data 12 16 = [86, 80, 56, 32]
            · simp [hpng, hjpeg, hgif, hweb, hlen, hvp8]
            · by_cases hvp8l : byteSlice data 12 16 = [86, 80, 56, 76] <;>
                simp [hpng, hjpeg, hgif, hweb, hlen, hvp8, hvp8l]
          · simp [hpng, hjpeg, hgif, hweb, hlen]
        · have hweb2 : ¬ (data.take 4 = [82, 73, 70, 70]
              ∧ byteSlice data 8 12 = [87, 69, 66, 80] ∧ 30 < data.length) := by
            rintro ⟨a, b, -⟩
            exact hweb ⟨a, b⟩
          simp [hpng, hjpeg, hgif, hweb, hweb2]

/-! ## C4 and C5: the rate limiter -/

lemma check_rate_limit_run_admits (ts : List ℚ) (s : ℚ) :
    ∀ done : List ℚ,
      (∀ t ∈ done ++ ts, s ≤ t ∧ t < s + 60) →
      done.length + ts.length ≤ 60 →
      check_rate_limit_run done ts = (List.replicate ts.length true, done ++ ts) := by
  induction ts with
  | nil =>
    intro done hin hlen
    simp [check_rate_limit_run]
  | cons t ts ih =>
    intro done hin hlen
    have ht := hin t (by simp)
    have hfilter : done.filter (fun x => decide (t - 60 < x)) = done := by
      rw [List.filter_eq_self]
      intro a ha
      have h1 := hin a (by simp [ha])
      simp only [decide_eq_true_eq]
      linarith [h1.1, ht.2]
    have hlt : ¬ (60 ≤ done.length) := by
      simp at hlen
      omega
    have hstep : check_rate_limit done t = (true, done ++ [t]) := by
      simp only [check_rate_limit, hfilter]
      rw [if_neg hlt]
    have hrun := ih (done ++ [t])
      (by
        intro a ha
        apply hin
        simp only [List.append_assoc, List.mem_append, List.mem_cons, List.mem_singleton] at ha ⊢
        tauto)
      (by simp at hlen ⊢; omega)
    simp only [check_rate_limit_run, hstep, hrun]
    simp [List.append_assoc, List.replicate_succ]

/-- Claim C4: with capacity 60 and window 60 seconds, for any client and
any 60-second span, the sixty checks inside the span all admit, a
sixty-first check inside the span is rejected (the endpoint then answers
429), and a check made 60 seconds after the last request admits again. -/
theorem C4_rate_limiter (s : ℚ) (ts : List ℚ) (hlen : ts.length = 60)
    (hin : ∀ t ∈ ts, s ≤ t ∧ t < s + 60)
    (t61 : ℚ) (_h61a : s ≤ t61) (h61b : t61 < s + 60)
    (hmono : ∀ t ∈ ts, t ≤ t61)
    (tr : ℚ) (hrest : t61 + 60 ≤ tr) :
    (check_rate_limit_run [] ts).1 = List.replicate 60 true ∧
    (check_rate_limit (check_rate_limit_run [] ts).2 t61).1 = false ∧
    (check_rate_limit (check_rate_limit (check_rate_limit_run [] ts).2 t61).2 tr).1 = true := by
  have hrun := check_rate_limit_run_admits ts s [] (by simpa using hin) (by simp [hlen])
  rw [hrun]
  simp only [List.nil_append]
  have hfilter : ts.filter (fun x => decide (t61 - 60 < x)) = ts := by
    rw [List.filter_eq_self]
    intro a ha
    have h1 := hin a ha
    simp only [decide_eq_true_eq]
    linarith [h1.1]
  have hrej : check_rate_limit ts t61 = (false, ts) := by
    simp only [check_rate_limit, hfilter]
    rw [if_pos (by omega)]
  refine ⟨by rw [hlen], by rw [hrej], ?_⟩
  rw [hrej]
  have hfilter2 : ts.filter (fun x => decide (tr - 60 < x)) = [] := by
    rw [List.filter_eq_nil_iff]
    intro a ha
    have h1 := hmono a ha
    simp only [decide_eq_true_eq, not_lt]
    linarith
  simp only [check_rate_limit, hfilter2]
  rw [if_neg (by simp)]

/-- Witness for C4: sixty checks at time 0, a sixty-first at time 0
(rejected), and a check at time 60 (admitted again). -/
theorem C4_rate_limiter_witness :
    (check_rate_limit_run [] (List.replicate 60 (0 : ℚ))).1 = List.replicate 60 true ∧
    (check_rate_limit (check_rate_limit_run [] (List.replicate 60 (0 : ℚ))).2 0).1 = false ∧
    (check_rate_limit
      (check_rate_limit (check_rate_limit_run [] (List.replicate 60 (0 : ℚ))).2 0).2 60).1
      = true :=
  C4_rate_limiter 0 (List.replicate 60 0) (by simp)
    (fun t ht => by rw [List.eq_of_mem_replicate ht]; norm_num)
    0 le_rfl (by norm_num)
    (fun t ht => by rw [List.eq_of_mem_replicate ht])
    60 (by norm_num)

/-- Counterexample to claim C5: a rejected check leaves the stored client
record completely untouched (the write happens after the exception is
raised), so the stale timestamp `-100`, although outside the trailing
window at time 1, stays in the stored record. -/
theorem C5_counterexample :
    check_rate_limit c5log 1 = (false, c5log) ∧
    (-100 : ℚ) ∈ c5log ∧ (-100 : ℚ) ≤ 1 - 60 := by
  refine ⟨?_, by simp [c5log], by norm_num⟩
  have h1 : c5log.filter (fun x => decide ((1 : ℚ) - 60 < x)) = List.replicate 60 0 := by
    simp only [c5log, List.filter_cons]
    rw [if_neg (by simp only [decide_eq_true_eq]; norm_num)]
    rw [List.filter_eq_self]
    intro a ha
    rw [List.eq_of_mem_replicate ha]
    simp only [decide_eq_true_eq]
    norm_num
  simp only [check_rate_limit, h1]
  rw [if_pos (by simp)]

/-- Claim C5 amended: an admitted check rewrites the stored record to the
pruned timestamps plus the current time, but a rejected check leaves the
stored record unchanged (pruning happens only on a discarded copy). -/
theorem C5_amended (log : List ℚ) (now : ℚ) :
    (check_rate_limit log now).2 =
      (if (check_rate_limit log now).1 = true
       then log.filter (fun t => decide (now - 60 < t)) ++ [now]
       else log) := by
  simp only [check_rate_limit]
  by_cases h : 60 ≤ (log.filter (fun t => decide (now - 60 < t))).length <;> simp [h]

/-! ## C3: remote-tier failure handling -/

/-- Counterexample to claim C3: with a rig already cached for the
hash of the payload, a failing presigned-URL call on the cache-hit redirect
path propagates out of the handler (the call is not wrapped in
`try/except`), so the remote-tier error fails the request instead of
falling back to the local result. -/
theorem C3_counterexample :
    lookupS stHit.fileCache (ctxS3.hashFn []) = some (Json.str "cached") ∧
    rig_endpoint ctxS3 stHit 0 "c" (some "change-me") (Body.file [])
      = Except.error () :=
  ⟨rfl, rfl⟩

/-- Claim C3 amended: on the cache-miss path the S3 block is guarded by
`try/except`, so a failing remote tier (a failing upload, or a failing
presign after a successful upload) is invisible: the endpoint behaves
exactly as if no remote tier were configured and serves the inline JSON
result.  (On the cache-hit path a remote error instead fails the
request.) -/
theorem C3_amended (hashFn : Bytes → String) (fixtures : List (String × Json))
    (samClip : Bool) (m : S3Model) (st : St) (now : ℚ) (host : String)
    (key : Option String) (data : Bytes)
    (hfail : (∀ k j, m.putObject k j = Except.error ())
      ∨ (∀ k, m.presignedUrl k = Except.error ()))
    (hmiss : lookupS st.fileCache (hashFn data) = none) :
    rig_endpoint ⟨hashFn, some m, fixtures, samClip⟩ st now host key (Body.file data)
      = rig_endpoint ⟨hashFn, none, fixtures, samClip⟩ st now host key (Body.file data) := by
  simp only [rig_endpoint]
  split_ifs
  · rfl
  · simp only [servePayload, hmiss]
    rcases hmp : missPathRig ⟨hashFn, some m, fixtures, samClip⟩ data (hashFn data)
        with e | rj
    · have hmp2 : missPathRig ⟨hashFn, none, fixtures, samClip⟩ data (hashFn data)
          = Except.error e := hmp
      rw [hmp2]
    · have hmp2 : missPathRig ⟨hashFn, none, fixtures, samClip⟩ data (hashFn data)
          = Except.ok rj := hmp
      rw [hmp2]
      dsimp only
      rcases hfail with hput | hsign
      · rw [hput]
      · rcases hputres : m.putObject ("rigs/" ++ hashFn data ++ ".json") rj with e2 | u
        · rfl
        · dsimp only
          rw [hsign]
  · rfl

/-- Witness for C3 amended: a concrete always-failing S3 tier, an empty
cache, and an empty payload. -/
theorem C3_amended_witness :
    rig_endpoint ⟨fun _ => "hW", some s3Fail, [], false⟩ st0 0 "c"
        (some "change-me") (Body.file [])
      = rig_endpoint ⟨fun _ => "hW", none, [], false⟩ st0 0 "c"
        (some "change-me") (Body.file []) :=
  C3_amended (fun _ => "hW") [] false s3Fail st0 0 "c" (some "change-me") []
    (Or.inl fun _ _ => rfl) rfl

/-! ## C6: the fixture overlay -/

/-- Counterexample to claim C6: with a fixture rig pre-seeded for the
hash of the payload and no local cache file, the fixture is served without
recomputation, but a cache file IS written for that hash (the
`cache_file.write_text` call runs unconditionally on the miss path), so
the fixture set is not a read-only overlay. -/
theorem C6_counterexample :
    lookupS ctxFix.fixtures (ctxFix.hashFn []) = some fixJson ∧
    lookupS st0.fileCache (ctxFix.hashFn []) = none ∧
    rig_endpoint ctxFix st0 0 "c" (some "change-me") (Body.file []) =
      Except.ok (Resp.json fixJson "f1",
        { reqLog := [("c:change-me", [0])], fileCache := [("f1", fixJson)] }) :=
  ⟨rfl, rfl, rfl⟩

/-- Claim C6 amended: when the content hash matches a pre-seeded (truthy)
fixture rig and no local cache file exists, the fixture rig is served
with cache-hit priority (no detection work), but a cache file for that
hash is written as a side effect. -/
theorem C6_amended (hashFn : Bytes → String) (fixtures : List (String × Json))
    (samClip : Bool) (st : St) (now : ℚ) (host : String) (data : Bytes) (r : Json)
    (hallow : (check_rate_limit (getLog st.reqLog (host ++ ":" ++ "change-me")) now).1 = true)
    (hmiss : lookupS st.fileCache (hashFn data) = none)
    (hfix : lookupS fixtures (hashFn data) = some r)
    (htruthy : jsonTruthy r = true) :
    rig_endpoint ⟨hashFn, none, fixtures, samClip⟩ st now host (some "change-me")
        (Body.file data)
      = Except.ok (Resp.json r (hashFn data),
          { reqLog := (host ++ ":" ++ "change-me",
              (check_rate_limit (getLog st.reqLog (host ++ ":" ++ "change-me")) now).2)
              :: st.reqLog,
            fileCache := (hashFn data, r) :: st.fileCache }) := by
  simp only [rig_endpoint, headerStr]
  rw [if_pos hallow, if_neg (by simp)]
  simp only [servePayload, hmiss]
  have hmp : missPathRig ⟨hashFn, none, fixtures, samClip⟩ data (hashFn data)
      = Except.ok r := by
    simp only [missPathRig, hfix, optTruthy, htruthy, ite_true, if_true]
  rw [hmp]

/-- Witness for C6 amended: the concrete fixture context. -/
theorem C6_amended_witness :
    rig_endpoint ⟨fun _ => "f1", none, [("f1", fixJson)], false⟩ st0 0 "c"
        (some "change-me") (Body.file [])
      = Except.ok (Resp.json fixJson "f1",
          { reqLog := [("c:change-me", [0])], fileCache := [("f1", fixJson)] }) :=
  C6_amended (fun _ => "f1") [("f1", fixJson)] false st0 0 "c" [] fixJson
    rfl rfl rfl rfl

/-! ## C7: idempotence of the endpoint on identical payloads -/

lemma decodePoints_map_encodePoint (l : List (ℚ × ℚ)) :
    decodePoints (l.map encodePoint) = some l := by
  induction l with
  | nil => rfl
  | cons p ps ih => simp [decodePoints, decodePoint, encodePoint, ih]

lemma decodeRegions_map_encodeRegion (l : List Region) :
    decodeRegions (l.map encodeRegion) = some l := by
  induction l with
  | nil => rfl
  | cons r rs ih =>
    simp [decodeRegions, decodeRegion, encodeRegion, decodePoints_map_encodePoint, ih]

lemma decodeRig_encodeRig (r : Rig) : decodeRig (encodeRig r) = some r := by
  simp [decodeRig, encodeRig, decodeRegions_map_encodeRegion]

/-- Claim C7: two sequential POSTs with byte-identical payloads (against
a service with no remote tier, so both responses are inline JSON) carry
the same content hash, the rig content of the second response equals
that of the first, the state after the first call holds a cache entry for that
hash with the first rig (the second call is served from it), and JSON
serialization of a stored rig followed by deserialization preserves its
content. -/
theorem C7_idempotence (hashFn : Bytes → String) (fixtures : List (String × Json))
    (samClip : Bool) (st st1 st2 : St) (t1 t2 : ℚ) (host1 host2 : String)
    (data : Bytes) (r1 r2 : Json) (hs1 hs2 : String)
    (h1 : rig_endpoint ⟨hashFn, none, fixtures, samClip⟩ st t1 host1 (some "change-me")
        (Body.file data) = Except.ok (Resp.json r1 hs1, st1))
    (h2 : rig_endpoint ⟨hashFn, none, fixtures, samClip⟩ st1 t2 host2 (some "change-me")
        (Body.file data) = Except.ok (Resp.json r2 hs2, st2)) :
    hs1 = hs2 ∧ r2 = r1 ∧ lookupS st1.fileCache hs1 = some r1 ∧
    ∀ rg : Rig, decodeRig (encodeRig rg) = some rg := by
  have key1 : hs1 = hashFn data ∧ lookupS st1.fileCache (hashFn data) = some r1 := by
    simp only [rig_endpoint, headerStr] at h1
    split_ifs at h1 with hc1 hc2
    · exact absurd h1 (by simp)
    · simp only [servePayload] at h1
      rcases hlk : lookupS st.fileCache (hashFn data) with _ | j
      · rw [hlk] at h1
        rcases hmp : missPathRig ⟨hashFn, none, fixtures, samClip⟩ data (hashFn data)
            with e | rj
        · rw [hmp] at h1
          exact absurd h1 (by simp)
        · rw [hmp] at h1
          simp only [Except.ok.injEq, Prod.mk.injEq, Resp.json.injEq] at h1
          obtain ⟨⟨hr, hh⟩, hst⟩ := h1
          subst hr hh
          rw [← hst]
          simp [lookupS]
      · rw [hlk] at h1
        simp only [Except.ok.injEq, Prod.mk.injEq, Resp.json.injEq] at h1
        obtain ⟨⟨hr, hh⟩, hst⟩ := h1
        subst hr hh
        rw [← hst]
        simpa [lookupS] using hlk
    · exact absurd h1 (by simp)
  obtain ⟨hhs1, hcache⟩ := key1
  have key2 : hs2 = hashFn data ∧ r2 = r1 := by
    simp only [rig_endpoint, headerStr] at h2
    split_ifs at h2 with hd1 hd2
    · exact absurd h2 (by simp)
    · simp only [servePayload] at h2
      rw [hcache] at h2
      simp only [Except.ok.injEq, Prod.mk.injEq, Resp.json.injEq] at h2
      exact ⟨h2.1.2.symm, h2.1.1.symm⟩
    · exact absurd h2 (by simp)
  refine ⟨?_, key2.2, ?_, decodeRig_encodeRig⟩
  · rw [hhs1, key2.1]
  · rw [hhs1]
    exact hcache

/-- Witness for C7: two concrete calls with the same (empty) payload
against a service whose cache already holds a rig for its hash. -/
theorem C7_idempotence_witness :
    ("h0w" : String) = "h0w" ∧
    Json.str "cached-rig" = Json.str "cached-rig" ∧
    lookupS [("h0w", Json.str "cached-rig")] "h0w" = some (Json.str "cached-rig") ∧
    ∀ rg : Rig, decodeRig (encodeRig rg) = some rg :=
  C7_idempotence (fun _ => "h0w") [] false stW
    ⟨[("c:change-me", [0])], [("h0w", Json.str "cached-rig")]⟩
    ⟨[("d:change-me", [0]), ("c:change-me", [0])], [("h0w", Json.str "cached-rig")]⟩
    0 0 "c" "d" [] (Json.str "cached-rig") (Json.str "cached-rig") "h0w" "h0w" rfl rfl

/-! ## C10: the detector never fails and the later fallbacks are dead -/

/-- Claim C10: `detect_cartoon_features` returns a feature dict for every
byte input (the embedding returns a `Features` record, which carries all
three keys by construction), and consequently, on the cache-miss path
with no fixture hit (and dimensions that do not make `box_to_poly`
raise), the computed rig is exactly the detector-derived rig: the
`sam_clip_fallback` call and the hard-coded static default are never
consulted. -/
theorem C10_detector_total :
    (∀ data : Bytes, (detect_cartoon_features data).isSome = true) ∧
    (∀ (ctx : Ctx) (data : Bytes) (hash : String),
      lookupS ctx.fixtures hash = none →
      (get_image_dimensions data).1 ≠ 0 →
      (get_image_dimensions data).2 ≠ 0 →
      ∃ f, detect_cartoon_features data = some f ∧
        missPathRig ctx data hash
          = Except.ok (encodeRig (featuresToRig f
              (get_image_dimensions data).1 (get_image_dimensions data).2))) := by
  constructor
  · intro data
    rfl
  · intro ctx data hash hfix hw hh
    obtain ⟨f, hf⟩ : ∃ f, detect_cartoon_features data = some f := ⟨_, rfl⟩
    refine ⟨f, hf, ?_⟩
    simp only [missPathRig, hfix, rigFromDetection, hf]
    rw [if_neg (by simp [hw, hh])]
    simp [optTruthy, jsonTruthy, encodeRig, featuresToRig]

/-- Witness for C10: the empty payload (sniffed as 512x512) against a
context with no fixtures. -/
theorem C10_detector_total_witness :
    ∃ f, detect_cartoon_features [] = some f ∧
      missPathRig ctxP [] "h"
        = Except.ok (encodeRig (featuresToRig f
            (get_image_dimensions []).1 (get_image_dimensions []).2)) :=
  C10_detector_total.2 ctxP [] "h" rfl (by decide) (by decide)

/-! ## C1 and C2: the rig served for the 2x2 gray PNG, and rig bounds -/

lemma gid_png2x2 : get_image_dimensions png2x2 = (2, 2) := by decide

lemma analyze_png2x2 : analyze_image_content png2x2 = none := rfl

lemma detect_png2x2 : detect_cartoon_features png2x2 = some feat2x2 := by
  simp only [detect_cartoon_features, gid_png2x2, analyze_png2x2, Option.map_none',
    Option.getD_none]
  rw [if_neg (by norm_num), if_neg (by norm_num)]
  simp only [detect_cartoon_features_fallback, clampRegion, feat2x2]
  norm_num [min_def, max_def, Features.mk.injEq, Box.mk.injEq]

lemma rigFromDetection_png2x2 :
    rigFromDetection png2x2 = Except.ok (some rigAt2x2) := by
  simp only [rigFromDetection, detect_png2x2, gid_png2x2]
  rw [if_neg (by norm_num)]
  simp only [featuresToRig, box_to_poly, feat2x2, rigAt2x2]
  norm_num [Region.mk.injEq, Prod.mk.injEq]

/-- Shared reduction: on the miss path with no fixture hit and nonzero
sniffed dimensions, the computed rig is the detector rig. -/
lemma missPathRig_detected (ctx : Ctx) (data : Bytes) (hash : String) (f : Features)
    (hfix : lookupS ctx.fixtures hash = none)
    (hf : detect_cartoon_features data = some f)
    (hw : (get_image_dimensions data).1 ≠ 0)
    (hh : (get_image_dimensions data).2 ≠ 0) :
    missPathRig ctx data hash
      = Except.ok (encodeRig (featuresToRig f
          (get_image_dimensions data).1 (get_image_dimensions data).2)) := by
  simp only [missPathRig, hfix, rigFromDetection, hf]
  rw [if_neg (by simp [hw, hh])]
  simp [optTruthy, jsonTruthy, encodeRig, featuresToRig]

lemma missPathRig_png2x2 :
    missPathRig ctxP png2x2 "hP" = Except.ok (encodeRig rigAt2x2) := by
  simp only [missPathRig, ctxP, lookupS, rigFromDetection_png2x2, Option.map_some']
  simp [optTruthy, jsonTruthy, encodeRig, rigAt2x2]

/-- Shared reduction: from the empty state, an authenticated request is
admitted, misses the cache and serves (inline, with no remote tier) the
miss-path rig, writing it to the cache. -/
lemma rig_endpoint_fresh (ctx : Ctx) (data : Bytes) (now : ℚ) (host : String)
    (rigJson : Json) (hs3 : ctx.s3 = none)
    (hmp : missPathRig ctx data (ctx.hashFn data) = Except.ok rigJson) :
    rig_endpoint ctx st0 now host (some "change-me") (Body.file data)
      = Except.ok (Resp.json rigJson (ctx.hashFn data),
          { reqLog := [(host ++ ":" ++ "change-me", [now])],
            fileCache := [(ctx.hashFn data, rigJson)] }) := by
  simp only [rig_endpoint, headerStr, st0]
  rw [if_pos (show (check_rate_limit (getLog [] (host ++ ":" ++ "change-me")) now).1 = true
    from rfl)]
  rw [if_neg (by simp)]
  simp only [servePayload, lookupS]
  rw [hmp, hs3]
  rfl

lemma clampRegion_nonneg (w h : ℚ) (b : Box) :
    0 ≤ (clampRegion w h b).x ∧ 0 ≤ (clampRegion w h b).y ∧
    20 ≤ (clampRegion w h b).w ∧ 20 ≤ (clampRegion w h b).h := by
  simp only [clampRegion]
  exact ⟨le_max_left 0 _, le_max_left 0 _, le_max_left 20 _, le_max_left 20 _⟩

lemma clampRegion_inside (w h : ℚ) (b : Box)
    (hx0 : 0 ≤ b.x) (hy0 : 0 ≤ b.y) (hx20 : b.x + 20 ≤ w) (hy20 : b.y + 20 ≤ h) :
    (clampRegion w h b).x + (clampRegion w h b).w ≤ w ∧
    (clampRegion w h b).y + (clampRegion w h b).h ≤ h := by
  simp only [clampRegion]
  constructor
  · have hxle : max 0 (min b.x (w - b.w)) ≤ b.x := max_le hx0 (min_le_left _ _)
    have h20 : (20 : ℚ) ≤ w - max 0 (min b.x (w - b.w)) := by linarith
    have hw2 : max 20 (min b.w (w - max 0 (min b.x (w - b.w))))
        ≤ w - max 0 (min b.x (w - b.w)) := max_le h20 (min_le_right _ _)
    linarith
  · have hyle : max 0 (min b.y (h - b.h)) ≤ b.y := max_le hy0 (min_le_left _ _)
    have h20 : (20 : ℚ) ≤ h - max 0 (min b.y (h - b.h)) := by linarith
    have hh2 : max 20 (min b.h (h - max 0 (min b.y (h - b.h))))
        ≤ h - max 0 (min b.y (h - b.h)) := max_le h20 (min_le_right _ _)
    linarith

lemma box_to_poly_nonneg (b : Box) (w h : Nat)
    (hx : 0 ≤ b.x) (hy : 0 ≤ b.y) (hbw : 0 ≤ b.w) (hbh : 0 ≤ b.h) :
    ∀ p ∈ box_to_poly b w h, 0 ≤ p.1 ∧ 0 ≤ p.2 := by
  have hwq : (0 : ℚ) ≤ w := Nat.cast_nonneg w
  have hhq : (0 : ℚ) ≤ h := Nat.cast_nonneg h
  intro p hp
  simp only [box_to_poly, List.mem_cons, List.not_mem_nil, or_false] at hp
  rcases hp with h1 | h1 | h1 | h1 <;> subst h1 <;>
    exact ⟨div_nonneg (by linarith) hwq, div_nonneg (by linarith) hhq⟩

lemma box_to_poly_in01 (b : Box) (w h : Nat) (hw : 0 < w) (hh : 0 < h)
    (hx : 0 ≤ b.x) (hy : 0 ≤ b.y) (hbw : 0 ≤ b.w) (hbh : 0 ≤ b.h)
    (hxw : b.x + b.w ≤ (w : ℚ)) (hyh : b.y + b.h ≤ (h : ℚ)) :
    ∀ p ∈ box_to_poly b w h, 0 ≤ p.1 ∧ p.1 ≤ 1 ∧ 0 ≤ p.2 ∧ p.2 ≤ 1 := by
  have hwq : (0 : ℚ) < w := by exact_mod_cast hw
  have hhq : (0 : ℚ) < h := by exact_mod_cast hh
  intro p hp
  simp only [box_to_poly, List.mem_cons, List.not_mem_nil, or_false] at hp
  rcases hp with h1 | h1 | h1 | h1 <;> subst h1 <;>
    exact ⟨div_nonneg (by linarith) hwq.le, (div_le_one hwq).mpr (by linarith),
           div_nonneg (by linarith) hhq.le, (div_le_one hhq).mpr (by linarith)⟩

lemma detect_bounds (data : Bytes) (f : Features)
    (hf : detect_cartoon_features data = some f) :
    (0 ≤ f.leftEye.x ∧ 0 ≤ f.leftEye.y ∧ 20 ≤ f.leftEye.w ∧ 20 ≤ f.leftEye.h) ∧
    (0 ≤ f.rightEye.x ∧ 0 ≤ f.rightEye.y ∧ 20 ≤ f.rightEye.w ∧ 20 ≤ f.rightEye.h) ∧
    (0 ≤ f.mouth.x ∧ 0 ≤ f.mouth.y ∧ 20 ≤ f.mouth.w ∧ 20 ≤ f.mouth.h) ∧
    (50 ≤ (((get_image_dimensions data).1 : ℕ) : ℚ) →
     58 ≤ (((get_image_dimensions data).2 : ℕ) : ℚ) →
      (f.leftEye.x + f.leftEye.w ≤ (((get_image_dimensions data).1 : ℕ) : ℚ) ∧
       f.leftEye.y + f.leftEye.h ≤ (((get_image_dimensions data).2 : ℕ) : ℚ)) ∧
      (f.rightEye.x + f.rightEye.w ≤ (((get_image_dimensions data).1 : ℕ) : ℚ) ∧
       f.rightEye.y + f.rightEye.h ≤ (((get_image_dimensions data).2 : ℕ) : ℚ)) ∧
      (f.mouth.x + f.mouth.w ≤ (((get_image_dimensions data).1 : ℕ) : ℚ) ∧
       f.mouth.y + f.mouth.h ≤ (((get_image_dimensions data).2 : ℕ) : ℚ))) := by
  simp only [detect_cartoon_features] at hf
  injection hf with hf2
  subst hf2
  refine ⟨clampRegion_nonneg _ _ _, clampRegion_nonneg _ _ _, clampRegion_nonneg _ _ _, ?_⟩
  intro h50 h58
  split_ifs <;>
    refine ⟨clampRegion_inside _ _ _ ?_ ?_ ?_ ?_, clampRegion_inside _ _ _ ?_ ?_ ?_ ?_,
      clampRegion_inside _ _ _ ?_ ?_ ?_ ?_⟩ <;>
    simp only [adjustEyes, adjustMouth, detect_cartoon_features_fallback] <;>
    linarith

/-- Counterexample to claim C1: for the 2x2 solid-gray PNG the endpoint
returns 200 with a rig whose coordinates leave the unit interval (the
20-pixel minimum region size exceeds the 2-pixel image), so the
"every coordinate in [0,1]" part of the claim fails exactly in the
small-dimension case the claim includes. -/
theorem C1_rig_structure_counterexample :
    rig_endpoint ctxP st0 0 "c" (some "change-me") (Body.file png2x2)
      = Except.ok (Resp.json (encodeRig rigAt2x2) "hP",
          { reqLog := [("c:change-me", [0])], fileCache := [("hP", encodeRig rigAt2x2)] }) ∧
    ¬ rigClaimOK rigAt2x2 := by
  constructor
  · exact rig_endpoint_fresh ctxP png2x2 0 "c" (encodeRig rigAt2x2) rfl missPathRig_png2x2
  · intro hOK
    have hmem1 : (⟨"eyeL",
        [((1 : ℚ)/4, (7 : ℚ)/20), (41/4, 7/20), (41/4, 207/20), (1/4, 207/20)]⟩ : Region)
        ∈ rigAt2x2 :=
      List.mem_cons_self _ _
    have hmem2 : ((41 : ℚ)/4, (7 : ℚ)/20)
        ∈ [((1 : ℚ)/4, (7 : ℚ)/20), (41/4, 7/20), (41/4, 207/20), (1/4, 207/20)] :=
      List.mem_cons_of_mem _ (List.mem_cons_self _ _)
    have h := (hOK.2 _ hmem1).2 _ hmem2
    norm_num at h

/-- Claim C1 amended: for every payload (with nonzero sniffed
dimensions, so that the rig is computed at all), the fresh-state endpoint
returns 200 with the detector rig, which always has exactly the three
regions `eyeL`, `eyeR`, `mouth` in order with 4-point polygons and
nonnegative coordinates; all coordinates moreover lie in `[0,1]` when
the sniffed width is at least 50 and the sniffed height at least 58 --
for smaller sniffed dimensions the 20-pixel minimum region size can push
coordinates above 1. -/
theorem C1_rig_structure_amended (hashFn : Bytes → String) (data : Bytes)
    (now : ℚ) (host : String)
    (hw : 1 ≤ (get_image_dimensions data).1) (hh : 1 ≤ (get_image_dimensions data).2) :
    ∃ (f : Features) (st1 : St),
      rig_endpoint ⟨hashFn, none, [], false⟩ st0 now host (some "change-me")
          (Body.file data)
        = Except.ok (Resp.json
            (encodeRig (featuresToRig f (get_image_dimensions data).1
              (get_image_dimensions data).2)) (hashFn data), st1) ∧
      (featuresToRig f (get_image_dimensions data).1 (get_image_dimensions data).2).map
          Region.type = ["eyeL", "eyeR", "mouth"] ∧
      (∀ reg ∈ featuresToRig f (get_image_dimensions data).1 (get_image_dimensions data).2,
        reg.poly.length = 4 ∧ ∀ p ∈ reg.poly, 0 ≤ p.1 ∧ 0 ≤ p.2) ∧
      (50 ≤ (get_image_dimensions data).1 → 58 ≤ (get_image_dimensions data).2 →
        rigClaimOK (featuresToRig f (get_image_dimensions data).1
          (get_image_dimensions data).2)) := by
  obtain ⟨f, hf⟩ : ∃ f, detect_cartoon_features data = some f := ⟨_, rfl⟩
  obtain ⟨hL, hR, hM, hcond⟩ := detect_bounds data f hf
  refine ⟨f, _, rig_endpoint_fresh ⟨hashFn, none, [], false⟩ data now host _ rfl
    (missPathRig_detected _ data _ f rfl hf (by omega) (by omega)), ?_, ?_, ?_⟩
  · simp [featuresToRig]
  · intro reg hreg
    simp only [featuresToRig, List.mem_cons, List.not_mem_nil, or_false] at hreg
    rcases hreg with h1 | h1 | h1 <;> subst h1
    · exact ⟨rfl, box_to_poly_nonneg _ _ _ hL.1 hL.2.1
        (by linarith [hL.2.2.1]) (by linarith [hL.2.2.2])⟩
    · exact ⟨rfl, box_to_poly_nonneg _ _ _ hR.1 hR.2.1
        (by linarith [hR.2.2.1]) (by linarith [hR.2.2.2])⟩
    · exact ⟨rfl, box_to_poly_nonneg _ _ _ hM.1 hM.2.1
        (by linarith [hM.2.2.1]) (by linarith [hM.2.2.2])⟩
  · intro h50 h58
    have h50q : (50 : ℚ) ≤ (((get_image_dimensions data).1 : ℕ) : ℚ) := by
      exact_mod_cast h50
    have h58q : (58 : ℚ) ≤ (((get_image_dimensions data).2 : ℕ) : ℚ) := by
      exact_mod_cast h58
    obtain ⟨hLin, hRin, hMin⟩ := hcond h50q h58q
    constructor
    · simp [featuresToRig]
    · intro reg hreg
      simp only [featuresToRig, List.mem_cons, List.not_mem_nil, or_false] at hreg
      rcases hreg with h1 | h1 | h1 <;> subst h1
      · exact ⟨rfl, box_to_poly_in01 _ _ _ (by omega) (by omega) hL.1 hL.2.1
          (by linarith [hL.2.2.1]) (by linarith [hL.2.2.2]) hLin.1 hLin.2⟩
      · exact ⟨rfl, box_to_poly_in01 _ _ _ (by omega) (by omega) hR.1 hR.2.1
          (by linarith [hR.2.2.1]) (by linarith [hR.2.2.2]) hRin.1 hRin.2⟩
      · exact ⟨rfl, box_to_poly_in01 _ _ _ (by omega) (by omega) hM.1 hM.2.1
          (by linarith [hM.2.2.1]) (by linarith [hM.2.2.2]) hMin.1 hMin.2⟩

/-- Witness for C1 amended: the empty payload, sniffed as 512x512. -/
theorem C1_rig_structure_amended_witness :
    ∃ (f : Features) (st1 : St),
      rig_endpoint ⟨fun _ => "hQ", none, [], false⟩ st0 0 "c" (some "change-me")
          (Body.file [])
        = Except.ok (Resp.json
            (encodeRig (featuresToRig f (get_image_dimensions []).1
              (get_image_dimensions []).2)) "hQ", st1) ∧
      (featuresToRig f (get_image_dimensions []).1 (get_image_dimensions []).2).map
          Region.type = ["eyeL", "eyeR", "mouth"] ∧
      (∀ reg ∈ featuresToRig f (get_image_dimensions []).1 (get_image_dimensions []).2,
        reg.poly.length = 4 ∧ ∀ p ∈ reg.poly, 0 ≤ p.1 ∧ 0 ≤ p.2) ∧
      (50 ≤ (get_image_dimensions []).1 → 58 ≤ (get_image_dimensions []).2 →
        rigClaimOK (featuresToRig f (get_image_dimensions []).1
          (get_image_dimensions []).2)) :=
  C1_rig_structure_amended (fun _ => "hQ") [] 0 "c" (by decide) (by decide)

lemma rigAt2x2_ne_static : rigAt2x2 ≠ staticDefaultRig := by
  intro h
  norm_num [rigAt2x2, staticDefaultRig, Region.mk.injEq, Prod.mk.injEq] at h

lemma encodeRig_rigAt2x2_ne_static :
    encodeRig rigAt2x2 ≠ encodeRig staticDefaultRig := by
  intro h
  have h2 : some rigAt2x2 = some staticDefaultRig := by
    rw [← decodeRig_encodeRig rigAt2x2, h, decodeRig_encodeRig]
  exact rigAt2x2_ne_static (Option.some.inj h2)

/-- Counterexample to claim C2: for the 2x2 solid-gray PNG with the
correct credential the endpoint does answer 200, but the served rig is
not the static default proportional layout: the heuristic detector has
no confidence gate, never reports "no confident detection", and its
clamped rig (with coordinates above 1) is what gets served. -/
theorem C2_uniform_image_counterexample :
    rig_endpoint ctxP st0 0 "c" (some "change-me") (Body.file png2x2)
      = Except.ok (Resp.json (encodeRig rigAt2x2) "hP",
          { reqLog := [("c:change-me", [0])], fileCache := [("hP", encodeRig rigAt2x2)] }) ∧
    encodeRig rigAt2x2 ≠ encodeRig staticDefaultRig :=
  ⟨rig_endpoint_fresh ctxP png2x2 0 "c" (encodeRig rigAt2x2) rfl missPathRig_png2x2,
   encodeRig_rigAt2x2_ne_static⟩

/-- Claim C2 amended: for the 2x2 solid-gray PNG posted with credential
`"change-me"`, the heuristic detector still returns a feature dict
(there is no confidence gate in the code), and the endpoint returns
status 200 with the detector-derived rig -- the proportional layout
clamped to the 20-pixel minimum at the parsed 2x2 dimensions -- which
differs from the hard-coded static default layout. -/
theorem C2_uniform_image_amended :
    detect_cartoon_features png2x2 = some feat2x2 ∧
    rigFromDetection png2x2 = Except.ok (some rigAt2x2) ∧
    rig_endpoint ctxP st0 0 "c" (some "change-me") (Body.file png2x2)
      = Except.ok (Resp.json (encodeRig rigAt2x2) "hP",
          { reqLog := [("c:change-me", [0])], fileCache := [("hP", encodeRig rigAt2x2)] }) ∧
    rigAt2x2 ≠ staticDefaultRig :=
  ⟨detect_png2x2, rigFromDetection_png2x2,
   rig_endpoint_fresh ctxP png2x2 0 "c" (encodeRig rigAt2x2) rfl missPathRig_png2x2,
   rigAt2x2_ne_static⟩
